import Mathlib

set_option maxHeartbeats 1000000

/-!
A shallow embedding of the `distributive` host-check library.

Each Go check is a function from an ordered list of string parameters to a
pair `(exitCode, exitMessage)`; checks read host state (files such as
`/etc/group` and `/proc/net/tcp`, and the output of external commands such as
`docker ps -a` and `route -n`) and may terminate the whole run via
`log.Fatal`, or hit a Go runtime panic on an out-of-range slice index.

The embedding makes the host state an explicit `Env` record (file contents as
`Option String`, command outputs together with their error flags, and oracles
for the OS lookups the Go standard library performs), and makes the three
possible outcomes of a check explicit in the `Res` type: a normal return, a
fatal `log.Fatal` termination, and a runtime panic.
-/

namespace Distributive

/-- Outcome of running a piece of the Go program: a normal return value, a
`log.Fatal` process termination carrying its message, or a runtime panic
(out-of-range index). -/
inductive Res (α : Type) where
  | ok : α → Res α
  | fatal : String → Res α
  | panic : Res α
deriving DecidableEq, Repr

/-- Sequencing of Go statements: a fatal exit or a panic stops everything
that follows. -/
def Res.bind {α β : Type} : Res α → (α → Res β) → Res β
  | .ok a, f => f a
  | .fatal m, _ => .fatal m
  | .panic, _ => .panic

instance : Monad Res where
  pure := Res.ok
  bind := Res.bind

/-- A check's `(exitCode, exitMessage)` pair. -/
abbrev CheckResult := Nat × String

/-- Reading `parameters[i]` in Go: a runtime panic when the index is out of
range. -/
def getParam (ps : List String) (i : Nat) : Res String :=
  match ps[i]? with
  | some s => .ok s
  | none => .panic

/-- Whitespace as matched by the column separators used on single-line
command output (`\s` minus the row separator `\n`). -/
def isWS (c : Char) : Bool := c = ' ' || c = '\t' || c = '\r'

/-- Split a character list at every character satisfying `p`, keeping empty
fields, exactly as Go's `regexp.Split` does for a single-character pattern. -/
def splitOnP (p : Char → Bool) : List Char → List (List Char)
  | [] => [[]]
  | c :: rest =>
    if p c then [] :: splitOnP p rest
    else
      match splitOnP p rest with
      | [] => [[c]]
      | f :: fs => (c :: f) :: fs

/-- Split a string at every occurrence of the character `sep`. -/
def splitOnC (sep : Char) (s : String) : List String :=
  (splitOnP (fun c => c = sep) s.toList).map String.mk

/-- Join character-list fields with a single separator character; the
left inverse of `splitOnP` on separator-free fields. -/
def joinSep (sep : Char) : List (List Char) → List Char
  | [] => []
  | [f] => f
  | f :: fs => f ++ sep :: joinSep sep fs

/-- Maximal runs of characters with the same `isWS` class. -/
def chunks : List Char → List (List Char)
  | [] => []
  | c :: rest =>
    match chunks rest with
    | [] => [[c]]
    | [] :: gs => [c] :: gs
    | (d :: ds) :: gs =>
      if isWS c = isWS d then (c :: d :: ds) :: gs else [c] :: (d :: ds) :: gs

/-- Rebuild the column list from the runs: a whitespace run of length at
least two is a column boundary, every other run is field content. -/
def fieldsOfRuns : List (List Char) → List String
  | [] => [""]
  | run :: rest =>
    if 2 ≤ run.length && isWS (run.headD 'x') then "" :: fieldsOfRuns rest
    else
      match fieldsOfRuns rest with
      | [] => [String.mk run]
      | f :: fs => (String.mk run ++ f) :: fs

/-- Split one line into columns under the run-of-whitespace policy: only a
run of two or more whitespace characters separates columns. -/
def multispaceSplit (s : String) : List String :=
  fieldsOfRuns (chunks s.toList)

/-- Split one line into whitespace-separated tokens (single-whitespace
column policy). -/
def wsTokens (s : String) : List String :=
  ((splitOnP isWS s.toList).filter (fun f => f ≠ [])).map String.mk

/-- Boolean prefix test on character lists. -/
def listPrefix : List Char → List Char → Bool
  | [], _ => true
  | _ :: _, [] => false
  | a :: as, b :: bs => a = b && listPrefix as bs

/-- Boolean infix test on character lists. -/
def infixOf (n : List Char) : List Char → Bool
  | [] => n.isEmpty
  | c :: t => listPrefix n (c :: t) || infixOf n t

/-- Go's `strings.Contains`. -/
def isSubstr (needle hay : String) : Bool := infixOf needle.toList hay.toList

/-- Decimal value of a digit list. -/
def digitsVal (l : List Char) : Nat :=
  l.foldl (fun acc c => acc * 10 + (c.toNat - 48)) 0

/-- Go's `strconv.ParseInt(s, 10, 64)`: an optional sign followed by at
least one decimal digit, and the value must fit in a signed 64-bit
integer (at most `2^63 - 1`, or `2^63` for a negative number); `none` on
malformed input and on `ErrRange` overflow alike, since the caller only
tests `err != nil`. -/
def parseInt10 (s : String) : Option Int :=
  match s.toList with
  | [] => none
  | '+' :: rest =>
    if !rest.isEmpty && rest.all Char.isDigit &&
        decide (digitsVal rest ≤ 9223372036854775807) then
      some (digitsVal rest)
    else none
  | '-' :: rest =>
    if !rest.isEmpty && rest.all Char.isDigit &&
        decide (digitsVal rest ≤ 9223372036854775808) then
      some (-(digitsVal rest : Int))
    else none
  | l =>
    if l.all Char.isDigit && decide (digitsVal l ≤ 9223372036854775807) then
      some (digitsVal l)
    else none

/-- Value of one hexadecimal digit, either case. -/
def hexDigitVal (c : Char) : Option Nat :=
  if c.isDigit then some (c.toNat - 48)
  else if 'a' ≤ c && c ≤ 'f' then some (c.toNat - 87)
  else if 'A' ≤ c && c ≤ 'F' then some (c.toNat - 55)
  else none

/-- Value of a hexadecimal digit list, `none` if some character is not a
hexadecimal digit. -/
def hexVal (l : List Char) : Option Nat :=
  l.foldl (fun acc c => acc.bind (fun a => (hexDigitVal c).map (fun d => a * 16 + d))) (some 0)

/-- Go's `strconv.ParseInt(s, 16, 64)`: an optional sign followed by at
least one hexadecimal digit, with the same signed 64-bit range check as
the decimal parse; `none` on malformed input and on overflow alike. -/
def parseHex (s : String) : Option Int :=
  match s.toList with
  | [] => none
  | '+' :: rest =>
    if rest.isEmpty then none
    else (hexVal rest).bind (fun n =>
      if n ≤ 9223372036854775807 then some (n : Int) else none)
  | '-' :: rest =>
    if rest.isEmpty then none
    else (hexVal rest).bind (fun n =>
      if n ≤ 9223372036854775808 then some (-(n : Int)) else none)
  | l =>
    (hexVal l).bind (fun n =>
      if n ≤ 9223372036854775807 then some (n : Int) else none)

/-- Uppercase hexadecimal digit, the character class of the port regular
expression `:([0-9A-F]{4})` in `getHexPorts`. -/
def isHexUpper (c : Char) : Bool := c.isDigit || ('A' ≤ c && c ≤ 'F')

/-- Leftmost match of the regular expression `:([0-9A-F]{4})`: the first
position holding a colon followed by four uppercase hexadecimal digits,
returned as those four digits (the Go code drops the leading colon with
`port[1:]`). -/
def findPort : List Char → Option (List Char)
  | ':' :: a :: b :: c :: d :: rest =>
    if isHexUpper a && isHexUpper b && isHexUpper c && isHexUpper d then some [a, b, c, d]
    else findPort (a :: b :: c :: d :: rest)
  | _ :: rest => findPort rest
  | [] => none

/-- Modelled from the spec: the Row/Column Tokenizer under the
exact-delimiter policy (`separateString` is called from `getGroups` with the
newline row separator and the colon column separator but its own source is
not in the repository slice). Splitting is literal and empty trailing
fields are preserved. -/
def separateString (rowSep colSep : Char) (data : String) : List (List String) :=
  (splitOnC rowSep data).map (splitOnC colSep)

/-- Modelled from the spec: the Row/Column Tokenizer under the
single-whitespace policy used for sources whose fields never contain
spaces, such as `/proc/net/tcp` (`stringToSlice` is called from
`getHexPorts` but its own source is not in the repository slice). -/
def stringToSlice (data : String) : List (List String) :=
  (splitOnC '\n' data).map wsTokens

/-- Modelled from the spec: the Row/Column Tokenizer under the
run-of-whitespace policy, where only a run of two or more whitespace
characters is a column boundary (`stringToSliceMultispace` is called from
`DockerRunning` but its own source is not in the repository slice). -/
def stringToSliceMultispace (data : String) : List (List String) :=
  (splitOnC '\n' data).map multispaceSplit

/-- Modelled from the spec: the Column Extractor with `skipHeader = true`
(`getColumnNoHeader` is called from several checks but its own source is not
in the repository slice). The first row is excluded unconditionally and a
row whose length makes the index out of range contributes no value. -/
def getColumnNoHeader (col : Nat) (table : List (List String)) : List String :=
  (table.drop 1).filterMap (fun row => row[col]?)

/-- Modelled from the spec: the Command/File Output Adapter for files
(`fileToString` is called from `getGroups` and `getHexPorts` but its own
source is not in the repository slice); an unreadable file is fatal. -/
def fileToString (contents : Option String) (path : String) : Res String :=
  match contents with
  | some s => .ok s
  | none => .fatal ("Could not read file: " ++ path)

/-- Modelled from the spec: the Command Output Adapter combined with the
Column Extractor (`commandColumnNoHeader` is called from `DockerImage` and
`routingTableColumn` but its own source is not in the repository slice). A
command failure is fatal, with a dedicated message when the combined output
carries a permission-denied signature; on success the output is tokenized
under the single-whitespace policy and the requested column is extracted
with the header row dropped. -/
def commandColumnNoHeader (col : Nat) (out : String) (cmdErr : Bool) (cmdName : String) :
    Res (List String) :=
  if cmdErr then
    if isSubstr "permission denied" out then
      .fatal ("Permission denied when running: " ++ cmdName)
    else
      .fatal ("Error while running: " ++ cmdName)
  else .ok (getColumnNoHeader col (stringToSlice out))

/-- Modelled from the spec: the rendering of the found set inside the
Diagnostic Formatter; an empty found sequence renders as an explicit
empty-set marker, a non-empty one is comma-joined. -/
def foundRender : List String → String
  | [] => "(none)"
  | fs => String.intercalate ", " fs

/-- Modelled from the spec: the Diagnostic Formatter
(`genericError` is called from almost every check but its own source is not
in the repository slice). It renders
`label\n\tWanted: wanted\n\tFound: found` with exit code 1. -/
def genericError (label wanted : String) (found : List String) : CheckResult :=
  (1, label ++ "\n\tWanted: " ++ wanted ++ "\n\tFound: " ++ foundRender found)

/-- Modelled from the spec: the strict integer parse for numeric
parameters (`parseMyInt` is called from `GroupId` and `Port` but its own
source is not in the repository slice); malformed input is fatal. -/
def parseMyInt (s : String) : Res Int :=
  match parseInt10 s with
  | some n => .ok n
  | none => .fatal ("Could not parse as int: " ++ s)

/-- Modelled from the spec: string membership in a sequence
(`strIn` is called from many checks but its own source is not in the
repository slice). -/
def strIn (s : String) (xs : List String) : Bool := xs.contains s

/-- The fields of Go's `os/user.User` struct that the checks compare
against; all five are strings. -/
structure GoUser where
  Uid : String
  Gid : String
  Username : String
  Name : String
  HomeDir : String
deriving DecidableEq, Repr

/-- One network interface as surfaced by Go's `net.Interfaces()`: its name,
its up flag, and for each of its addresses the rendering produced by
`ip.To4().String()` and by `ip.To16().String()`; `addrsOk` is false when
`iface.Addrs()` returns an error. -/
structure NetInterface where
  name : String
  up : Bool
  addrsOk : Bool
  addrs : List (String × String)
deriving DecidableEq, Repr

/-- The host state a check invocation can observe: file contents, external
command outputs together with their failure flags, and oracles for the OS
and standard-library lookups. -/
structure Env where
  etcGroup : Option String
  procNetTcp : Option String
  dockerImagesOut : String
  dockerImagesErr : Bool
  dockerPsOut : String
  dockerPsErr : Bool
  dockerPsErrMsg : String
  routeOut : String
  routeErr : Bool
  interfacesOk : Bool
  interfaces : List NetInterface
  lookupId : String → Option GoUser
  lookupName : String → Option GoUser
  lookupHostOk : String → Bool
  resolveTCP : String → Option String
  resolveUDP : String → Option String
  dialTimeout : String → String → Bool
  parseDuration : String → Option Int

/-- An entry of `/etc/group` (struct `Group` in `users-and-groups.go`). -/
structure Group where
  Name : String
  Id : Int
  Users : List String
deriving DecidableEq, Repr

/-- The loop body of `getGroups`: lines with at most 3 colon fields are
skipped; on a line with more than 3 fields the numeric id field must parse
or the run terminates fatally, and the group is built from fields 0, 2
and 3 (field 3 split on commas). -/
def getGroupsLines : List (List String) → Res (List Group)
  | [] => .ok []
  | line :: rest =>
    if 3 < line.length then
      match parseInt10 (line.getD 2 "") with
      | none => .fatal ("Could not parse ID for group: " ++ line.getD 0 "")
      | some gid => do
        let groups ← getGroupsLines rest
        pure ({ Name := line.getD 0 "", Id := gid, Users := splitOnC ',' (line.getD 3 "") } :: groups)
    else getGroupsLines rest

/-- `getGroups`: parse `/etc/group` with newline rows and colon columns. -/
def getGroups (env : Env) : Res (List Group) := do
  let data ← fileToString env.etcGroup "/etc/group"
  getGroupsLines (separateString '\n' ':' data)

/-- `groupNotFound`: the shared failure result for a missing group, listing
the names of the groups that do exist. -/
def groupNotFound (env : Env) (name : String) : Res CheckResult := do
  let groups ← getGroups env
  pure (genericError "Group not found" name (groups.map (fun g => g.Name)))

/-- `GroupExists`: does a group of the given name exist? -/
def GroupExists (env : Env) (parameters : List String) : Res CheckResult := do
  let name ← getParam parameters 0
  let groups ← getGroups env
  if groups.any (fun g => g.Name = name) then pure (0, "")
  else groupNotFound env name

/-- `UserInGroup`, exactly as written in the source: both `user` and
`group` read `parameters[0]`. -/
def UserInGroup (env : Env) (parameters : List String) : Res CheckResult := do
  let user ← getParam parameters 0
  let group ← getParam parameters 0
  let groups ← getGroups env
  match groups.find? (fun g => g.Name = group) with
  | some g =>
    if strIn user g.Users then pure (0, "")
    else pure (genericError "User not found in group" user g.Users)
  | none => groupNotFound env group

/-- `GroupId`: does the group of the given name have the given integer id? -/
def GroupId (env : Env) (parameters : List String) : Res CheckResult := do
  let name ← getParam parameters 0
  let idStr ← getParam parameters 1
  let id ← parseMyInt idStr
  let groups ← getGroups env
  match groups.find? (fun g => g.Name = name) with
  | some g =>
    if g.Id = id then pure (0, "")
    else pure (genericError "Group does not have expected ID" (toString id) [toString g.Id])
  | none => groupNotFound env name

/-- `lookupUser`: try the id lookup first, then the name lookup; `none`
when both fail. -/
def lookupUser (env : Env) (usernameOrUid : String) : Option GoUser :=
  match env.lookupId usernameOrUid with
  | some u => some u
  | none => env.lookupName usernameOrUid

/-- The reflection-based field access of `userHasField`: the five field
names used by the checks all denote string fields of `user.User`; any other
name yields a non-string reflection value. -/
def userFieldValue (u : GoUser) : String → Option String
  | "Uid" => some u.Uid
  | "Gid" => some u.Gid
  | "Username" => some u.Username
  | "Name" => some u.Name
  | "HomeDir" => some u.HomeDir
  | _ => none

/-- `userHasField`: `.ok none` models the `(false, err)` return when the
user does not exist; a non-string field is fatal. -/
def userHasField (env : Env) (usernameOrUid fieldName givenValue : String) :
    Res (Option Bool) :=
  match lookupUser env usernameOrUid with
  | none => .ok none
  | some u =>
    match userFieldValue u fieldName with
    | none => .fatal ("Failure during reflection: Field is not a string:\n\tField name: " ++ fieldName)
    | some actual => .ok (some (actual = givenValue))

/-- `genericUserField`: check one field of a looked-up user. -/
def genericUserField (env : Env) (usernameOrUid fieldName fieldValue : String) :
    Res CheckResult := do
  let r ← userHasField env usernameOrUid fieldName fieldValue
  match r with
  | none => pure (1, "User does not exist: " ++ usernameOrUid)
  | some true => pure (0, "")
  | some false =>
    pure (1, "User does not have expected " ++ fieldName ++ ": " ++ "\nUser: " ++
      usernameOrUid ++ "\nGiven: " ++ fieldValue)

/-- `UserExists`: does a user with the given username or uid exist? -/
def UserExists (env : Env) (parameters : List String) : Res CheckResult := do
  let usernameOrUid ← getParam parameters 0
  match lookupUser env usernameOrUid with
  | some _ => pure (0, "")
  | none => pure (1, "User does not exist: " ++ usernameOrUid)

/-- `UserHasUID`. -/
def UserHasUID (env : Env) (parameters : List String) : Res CheckResult := do
  let a ← getParam parameters 0
  let b ← getParam parameters 1
  genericUserField env a "Uid" b

/-- `UserHasGID`. -/
def UserHasGID (env : Env) (parameters : List String) : Res CheckResult := do
  let a ← getParam parameters 0
  let b ← getParam parameters 1
  genericUserField env a "Gid" b

/-- `UserHasUsername`. -/
def UserHasUsername (env : Env) (parameters : List String) : Res CheckResult := do
  let a ← getParam parameters 0
  let b ← getParam parameters 1
  genericUserField env a "Username" b

/-- `UserHasName`. -/
def UserHasName (env : Env) (parameters : List String) : Res CheckResult := do
  let a ← getParam parameters 0
  let b ← getParam parameters 1
  genericUserField env a "Name" b

/-- `UserHasHomeDir`. -/
def UserHasHomeDir (env : Env) (parameters : List String) : Res CheckResult := do
  let a ← getParam parameters 0
  let b ← getParam parameters 1
  genericUserField env a "HomeDir" b

/-- `DockerImage`: is the named image in column 0 of `docker images`
(header row dropped)? -/
def DockerImage (env : Env) (parameters : List String) : Res CheckResult := do
  let name ← getParam parameters 0
  let images ← commandColumnNoHeader 0 env.dockerImagesOut env.dockerImagesErr "docker images"
  if strIn name images then pure (0, "")
  else pure (genericError "Docker image was not found" name images)

/-- The `for i, status := range statuses` loop of `getRunningContainers`:
collect `names[i]` whenever the status contains `"Up"` and the index is in
range for `names`. -/
def statusLoop (names : List String) : Nat → List String → List String
  | _, [] => []
  | i, status :: rest =>
    if isSubstr "Up" status && decide (i < names.length) then
      names.getD i "" :: statusLoop names (i + 1) rest
    else statusLoop names (i + 1) rest

/-- `getRunningContainers` (the closure inside `DockerRunning`): a failing
`docker ps -a` is fatal, with a dedicated message when the combined output
contains a permission-denied signature; otherwise the output is tokenized
under the run-of-whitespace policy and the column-1 names of rows whose
column-4 status contains `"Up"` are collected. -/
def getRunningContainers (env : Env) : Res (List String) :=
  if env.dockerPsErr then
    if isSubstr "permission denied" env.dockerPsOut then
      .fatal "Permission denied when running: docker ps -a"
    else
      .fatal ("Error while running `docker ps -a`" ++ "\n\t" ++ env.dockerPsErrMsg)
  else
    let lines := stringToSliceMultispace env.dockerPsOut
    if lines.length < 1 then .ok []
    else
      let names := getColumnNoHeader 1 lines
      let statuses := getColumnNoHeader 4 lines
      .ok (statusLoop names 0 statuses)

/-- `DockerRunning`: is the named container among the running ones? -/
def DockerRunning (env : Env) (parameters : List String) : Res CheckResult := do
  let name ← getParam parameters 0
  let running ← getRunningContainers env
  if strIn name running then pure (0, "")
  else pure (genericError "Docker container not runnning" name running)

/-- `getHexPorts`: the four-hex-digit port of each local address in column 1
of `/proc/net/tcp` (header dropped), as matched by `:([0-9A-F]{4})`. -/
def getHexPorts (data : String) : List String :=
  (getColumnNoHeader 1 (stringToSlice data)).filterMap
    (fun address => (findPort address.toList).map String.mk)

/-- `strHexToDecimal`: parse a hexadecimal string, fatally on failure. -/
def strHexToDecimal (hex : String) : Res Int :=
  match parseHex hex with
  | some n => .ok n
  | none => .fatal ("Couldn't parse hex number " ++ hex)

/-- `getOpenPorts`: the open ports of `/proc/net/tcp` as integers. -/
def getOpenPorts (env : Env) : Res (List Int) := do
  let data ← fileToString env.procNetTcp "/proc/net/tcp"
  (getHexPorts data).mapM strHexToDecimal

/-- `Port`: is the given port among the open ones? -/
def Port (env : Env) (parameters : List String) : Res CheckResult := do
  let portStr ← getParam parameters 0
  let port ← parseMyInt portStr
  let openPorts ← getOpenPorts env
  if openPorts.contains port then pure (0, "")
  else pure (genericError "Port not open" (toString port) (openPorts.map toString))

/-- `getInterfaces`: enumerate network interfaces, fatally on error. -/
def getInterfaces (env : Env) : Res (List NetInterface) :=
  if env.interfacesOk then .ok env.interfaces
  else .fatal "Could not read network interfaces"

/-- `Interface`: does a network interface of the given name exist? -/
def Interface (env : Env) (parameters : List String) : Res CheckResult := do
  let name ← getParam parameters 0
  let ifaces ← getInterfaces env
  let interfaceNames := ifaces.map (fun i => i.name)
  if interfaceNames.any (fun i => i = name) then pure (0, "")
  else pure (genericError "Interface does not exist" name interfaceNames)

/-- `Up`: is the named network interface up? -/
def Up (env : Env) (parameters : List String) : Res CheckResult := do
  let name ← getParam parameters 0
  let ifaces ← getInterfaces env
  let upInterfaces := (ifaces.filter (fun i => i.up)).map (fun i => i.name)
  if strIn name upInterfaces then pure (0, "")
  else pure (genericError "Interface is not up" name upInterfaces)

/-- `getInterfaceIPs`: the addresses of the named interface rendered for
the requested IP version; an IP version other than 4 or 6 is fatal before
anything else happens, and a failing `iface.Addrs()` is fatal. -/
def getInterfaceIPs (env : Env) (name : String) (version : Int) : Res (List String) :=
  if version ≠ 4 && version ≠ 6 then
    .fatal ("Misconfigured JSON: Unsupported IP version: " ++ toString version)
  else do
    let ifaces ← getInterfaces env
    match ifaces.find? (fun i => i.name = name) with
    | some iface =>
      if iface.addrsOk then
        pure (iface.addrs.map (fun a => if version = 4 then a.1 else a.2))
      else .fatal ("Could not get network addressed from interface: \n\tInterface name: " ++ name)
    | none => pure []

/-- `getIPWorker`: shared body of `Ip4` and `Ip6`. -/
def getIPWorker (env : Env) (name address : String) (version : Int) : Res CheckResult := do
  let ips ← getInterfaceIPs env name version
  if strIn address ips then pure (0, "")
  else pure (genericError "Interface does not have IP" address ips)

/-- `Ip4`: does the named interface have the given IPv4 address? -/
def Ip4 (env : Env) (parameters : List String) : Res CheckResult := do
  let a ← getParam parameters 0
  let b ← getParam parameters 1
  getIPWorker env a b 4

/-- `Ip6`: does the named interface have the given IPv6 address? -/
def Ip6 (env : Env) (parameters : List String) : Res CheckResult := do
  let a ← getParam parameters 0
  let b ← getParam parameters 1
  getIPWorker env a b 6

/-- `routingTableColumn`: a column of `route -n` with the header dropped by
`commandColumnNoHeader` and the first data value dropped again by the `[1:]`
slice; Go panics on `[1:]` when the extracted column is the empty (nil)
slice. -/
def routingTableColumn (env : Env) (column : Nat) : Res (List String) := do
  let col ← commandColumnNoHeader column env.routeOut env.routeErr "route -n"
  match col with
  | [] => .panic
  | _ :: rest => pure rest

/-- `Gateway`: the first non-`"0.0.0.0"` entry of routing-table column 1,
defaulting to `"0.0.0.0"`. -/
def Gateway (env : Env) (parameters : List String) : Res CheckResult := do
  let address ← getParam parameters 0
  let ips ← routingTableColumn env 1
  let gatewayIP := match ips.find? (fun ip => ip ≠ "0.0.0.0") with
    | some ip => ip
    | none => "0.0.0.0"
  if address = gatewayIP then pure (0, "")
  else pure (genericError "Gateway does not have address" address [gatewayIP])

/-- The `for i, ip := range ips` loop of `getGatewayInterface`: at the first
non-`"0.0.0.0"` ip, the guard `len(names) < i` is fatal — the source builds
a message but then calls `log.Fatal()` with no argument, so the
termination carries an empty message — and otherwise `names[i]` is read
(a Go panic when `i` equals `len(names)`); when no ip qualifies the result
is the empty string. -/
def gwLoop (names : List String) : Nat → List String → Res String
  | _, [] => pure ""
  | i, ip :: rest =>
    if ip ≠ "0.0.0.0" then
      if names.length < i then .fatal ""
      else
        match names[i]? with
        | some n => pure n
        | none => .panic
    else gwLoop names (i + 1) rest

/-- `GatewayInterface`, exactly as written in the source: both `ips` and
`names` read routing-table column 1, so the reported interface is the
gateway IP itself. -/
def GatewayInterface (env : Env) (parameters : List String) : Res CheckResult := do
  let name ← getParam parameters 0
  let ips ← routingTableColumn env 1
  let names ← routingTableColumn env 1
  let iface ← gwLoop names 0 ips
  if name = iface then pure (0, "")
  else pure (genericError "Default gateway does not operate on interface" name [iface])

/-- `Host`: can the given host be resolved? -/
def Host (env : Env) (parameters : List String) : Res CheckResult := do
  let host ← getParam parameters 0
  if env.lookupHostOk host then pure (0, "")
  else pure (1, "Host cannot be resolved: " ++ host)

/-- `canConnect`: an unsupported protocol is fatal, and a failing address
resolution is fatal. When no timeout is given (`nanoseconds <= 0`) the
source dials with `conn, err = net.DialTCP(...)` inside the `switch` case,
where `err` resolves to the case-local variable introduced by
`tcpaddr, err := ...`; the outer `err` consulted by the final
`if err == nil` therefore stays nil and the function returns true
regardless of the dial outcome. With a positive timeout the outer `err` is
set by `net.DialTimeout`, whose outcome the `dialTimeout` oracle
supplies. -/
def canConnect (env : Env) (host protocol : String) (timeoutNs : Int) : Res Bool :=
  if protocol = "TCP" then
    match env.resolveTCP host with
    | none => .fatal ("Could not parse " ++ protocol ++ " address: " ++ host)
    | some addr =>
      if timeoutNs > 0 then .ok (env.dialTimeout "tcp" addr) else .ok true
  else if protocol = "UDP" then
    match env.resolveUDP host with
    | none => .fatal ("Could not parse " ++ protocol ++ " address: " ++ host)
    | some addr =>
      if timeoutNs > 0 then .ok (env.dialTimeout "udp" addr) else .ok true
  else .fatal ("Unsupported protocol: " ++ protocol)

/-- `getConnectionWorker`: a timeout string that does not parse as a
duration is fatal; otherwise the check reports whether the connection
attempt succeeded. -/
def getConnectionWorker (env : Env) (host protocol timeoutstr : String) : Res CheckResult :=
  match env.parseDuration timeoutstr with
  | none => .fatal ("Configuration error: Could not parse duration: " ++ timeoutstr)
  | some dur => do
    let b ← canConnect env host protocol dur
    if b then pure (0, "")
    else pure (1, "Could not connect over " ++ protocol ++ " to host: " ++ host)

/-- `TCP`: can the given address be reached over TCP? -/
def TCP (env : Env) (parameters : List String) : Res CheckResult := do
  let a ← getParam parameters 0
  getConnectionWorker env a "TCP" "0ns"

/-- `UDP`: can the given address be reached over UDP? -/
def UDP (env : Env) (parameters : List String) : Res CheckResult := do
  let a ← getParam parameters 0
  getConnectionWorker env a "UDP" "0ns"

/-- `routingTableMatch`: membership of a string in a routing-table column. -/
def routingTableMatch (env : Env) (col : Nat) (str : String) : Res CheckResult := do
  let column ← routingTableColumn env col
  if strIn str column then pure (0, "")
  else pure (genericError "Not found in routing table" str column)

/-- `RoutingTableDestination`: column 0 of the routing table. -/
def RoutingTableDestination (env : Env) (parameters : List String) : Res CheckResult := do
  let a ← getParam parameters 0
  routingTableMatch env 0 a

/-- `RoutingTableInterface`: column 7 of the routing table. -/
def RoutingTableInterface (env : Env) (parameters : List String) : Res CheckResult := do
  let a ← getParam parameters 0
  routingTableMatch env 7 a

/-- `RoutingTableGateway`: column 1 of the routing table. -/
def RoutingTableGateway (env : Env) (parameters : List String) : Res CheckResult := do
  let a ← getParam parameters 0
  routingTableMatch env 1 a

/-- A neutral host state: unreadable files, empty command outputs, no
interfaces, all lookups failing. -/
def baseEnv : Env where
  etcGroup := none
  procNetTcp := none
  dockerImagesOut := ""
  dockerImagesErr := false
  dockerPsOut := ""
  dockerPsErr := false
  dockerPsErrMsg := ""
  routeOut := ""
  routeErr := false
  interfacesOk := true
  interfaces := []
  lookupId := fun _ => none
  lookupName := fun _ => none
  lookupHostOk := fun _ => false
  resolveTCP := fun _ => none
  resolveUDP := fun _ => none
  dialTimeout := fun _ _ => false
  parseDuration := fun _ => none

/-- Host state whose `/etc/group` holds the spec's fixture line
`sudo:x:27:alice`. -/
def envGroupFix : Env := { baseEnv with etcGroup := some "sudo:x:27:alice" }

/-- Host state whose `/etc/group` holds the spec's fixture line
`wheel:x:10:alice,bob`. -/
def envWheel : Env := { baseEnv with etcGroup := some "wheel:x:10:alice,bob" }

/-- Host state whose `/proc/net/tcp` holds a local address with port hex
`1F90` (8080 decimal). -/
def envTcpFix : Env := { baseEnv with
  procNetTcp := some "sl local_address rem_address st\n0: 0100007F:1F90 00000000:0000 0A" }

/-- Host state whose `docker images` output holds a row for `ubuntu` and
whose `docker ps -a` output holds a running container named `app-1`. -/
def envDockerFix : Env := { baseEnv with
  dockerImagesOut := "REPOSITORY TAG IMAGE ID CREATED SIZE\nubuntu latest 123 now 70MB"
  dockerPsOut := "CONTAINER ID   IMAGE     COMMAND   CREATED   STATUS      PORTS   NAMES\nabc123   app-1   cmd   now   Up 3 hours   80   mycontainer app" }

/-- Host state whose `docker ps -a` invocation fails with a
permission-denied signature in its combined output. -/
def envPsErr : Env := { baseEnv with
  dockerPsOut := "permission denied"
  dockerPsErr := true
  dockerPsErrMsg := "exit status 1" }

/-- Host state whose `route -n` output holds a default route through
`10.0.0.1` on `eth0`. -/
def envRouteFix : Env := { baseEnv with
  routeOut := "Kernel IP routing table\nDestination Gateway Genmask Flags Metric Ref Use Iface\n0.0.0.0 10.0.0.1 0.0.0.0 UG 0 0 0 eth0" }

/-- The Check Result invariant of the spec: whenever a check returns
normally, the exit code is 0 or 1, exit code 0 comes with the empty
message, and exit code 1 comes with a non-empty message. -/
def resultInvariant (r : Res CheckResult) : Prop :=
  ∀ c m, r = .ok (c, m) → (c = 0 ∨ c = 1) ∧ (c = 0 → m = "") ∧ (c = 1 → m ≠ "")

/-- The value `getGatewayInterface` extracts from routing-table column 1:
the first entry that is not `"0.0.0.0"`, or the empty string. -/
def gwFirst (l : List String) : String :=
  match l.find? (fun ip => ip ≠ "0.0.0.0") with
  | some ip => ip
  | none => ""

/-- Does the character list contain two adjacent whitespace characters
(the only way a run of two or more whitespace characters can occur)? -/
def hasWW : List Char → Bool
  | c1 :: c2 :: rest => (isWS c1 && isWS c2) || hasWW (c2 :: rest)
  | _ => false

/-- Colon-join of the fields of one row; the input that the exact-delimiter
tokenizer must take back apart. -/
def joinCols (fields : List String) : String :=
  String.mk (joinSep ':' (fields.map String.toList))

/-- Newline-join of a list of already-joined rows. -/
def joinRows (rows : List String) : String :=
  String.mk (joinSep '\n' (rows.map String.toList))

@[simp] theorem res_bind_def {α β : Type} (x : Res α) (f : α → Res β) :
    x >>= f = Res.bind x f := rfl

@[simp] theorem res_pure_def {α : Type} (a : α) : (pure a : Res α) = Res.ok a := rfl

@[simp] theorem res_bind_ok {α β : Type} (a : α) (f : α → Res β) :
    Res.bind (.ok a) f = f a := rfl

@[simp] theorem res_bind_fatal {α β : Type} (m : String) (f : α → Res β) :
    Res.bind (.fatal m) f = .fatal m := rfl

@[simp] theorem res_bind_panic {α β : Type} (f : α → Res β) :
    Res.bind (.panic : Res α) f = .panic := rfl

theorem str_append_left_ne (a b : String) (h : a ≠ "") : a ++ b ≠ "" := by
  intro hc
  apply h
  have hd : a.data ++ b.data = [] := congrArg String.data hc
  rcases List.append_eq_nil.mp hd with ⟨ha, _⟩
  cases a with
  | mk d =>
    have hd2 : d = [] := ha
    subst hd2
    rfl

theorem genericError_snd_ne (l w : String) (f : List String) :
    (genericError l w f).2 ≠ "" := by
  intro hc
  have hlen := congrArg String.length hc
  simp only [genericError, String.length_append] at hlen
  have h1 : ("\n\tWanted: " : String).length = 10 := rfl
  have h2 : ("\n\tFound: " : String).length = 9 := rfl
  have h0 : ("" : String).length = 0 := rfl
  rw [h1, h2, h0] at hlen
  omega

theorem inv_okP (p : CheckResult) (h1 : p.1 = 0 ∨ p.1 = 1) (h2 : p.1 = 0 → p.2 = "")
    (h3 : p.1 = 1 → p.2 ≠ "") : resultInvariant (Res.ok p) := by
  intro c m h
  injection h with h'
  subst h'
  exact ⟨h1, h2, h3⟩

theorem inv_ok00 : resultInvariant (Res.ok ((0, "") : CheckResult)) :=
  inv_okP _ (Or.inl rfl) (fun _ => rfl) (fun h => absurd h (by decide))

theorem inv_genericError (l w : String) (f : List String) :
    resultInvariant (Res.ok (genericError l w f)) :=
  inv_okP _ (Or.inr rfl) (fun h => by simp [genericError] at h)
    (fun _ => genericError_snd_ne l w f)

theorem inv_ok1 (m : String) (hm : m ≠ "") : resultInvariant (Res.ok ((1, m) : CheckResult)) :=
  inv_okP _ (Or.inr rfl) (fun h => by simp at h) (fun _ => hm)

theorem inv_bind {α : Type} (x : Res α) (f : α → Res CheckResult)
    (hf : ∀ a, resultInvariant (f a)) : resultInvariant (Res.bind x f) := by
  cases x with
  | ok a => exact hf a
  | fatal m => intro c m2 h; simp at h
  | panic => intro c m2 h; simp at h

theorem inv_fatal (m : String) : resultInvariant (.fatal m : Res CheckResult) := by
  intro c m2 h; simp at h

theorem inv_panic : resultInvariant (.panic : Res CheckResult) := by
  intro c m2 h; simp at h

theorem inv_groupNotFound (env : Env) (name : String) :
    resultInvariant (groupNotFound env name) := by
  unfold groupNotFound
  simp only [res_bind_def, res_pure_def]
  exact inv_bind _ _ (fun _ => inv_genericError _ _ _)

theorem inv_GroupExists (env : Env) (ps : List String) :
    resultInvariant (GroupExists env ps) := by
  unfold GroupExists
  simp only [res_bind_def, res_pure_def]
  refine inv_bind _ _ (fun name => inv_bind _ _ (fun groups => ?_))
  split
  · exact inv_ok00
  · exact inv_groupNotFound env name

theorem inv_UserInGroup (env : Env) (ps : List String) :
    resultInvariant (UserInGroup env ps) := by
  unfold UserInGroup
  simp only [res_bind_def, res_pure_def]
  refine inv_bind _ _ (fun user => inv_bind _ _ (fun group => inv_bind _ _ (fun groups => ?_)))
  split
  · split
    · exact inv_ok00
    · exact inv_genericError _ _ _
  · exact inv_groupNotFound env group

theorem inv_GroupId (env : Env) (ps : List String) :
    resultInvariant (GroupId env ps) := by
  unfold GroupId
  simp only [res_bind_def, res_pure_def]
  refine inv_bind _ _ (fun name => inv_bind _ _ (fun idStr => inv_bind _ _ (fun id =>
    inv_bind _ _ (fun groups => ?_))))
  split
  · split
    · exact inv_ok00
    · exact inv_genericError _ _ _
  · exact inv_groupNotFound env name

theorem inv_genericUserField (env : Env) (u fn fv : String) :
    resultInvariant (genericUserField env u fn fv) := by
  unfold genericUserField
  simp only [res_bind_def, res_pure_def]
  refine inv_bind _ _ (fun r => ?_)
  match r with
  | none => exact inv_ok1 _ (str_append_left_ne _ _ (by decide))
  | some true => exact inv_ok00
  | some false =>
    refine inv_ok1 _ ?_
    exact str_append_left_ne _ _ (str_append_left_ne _ _ (str_append_left_ne _ _
      (str_append_left_ne _ _ (str_append_left_ne _ _ (str_append_left_ne _ _ (by decide))))))

theorem inv_UserExists (env : Env) (ps : List String) :
    resultInvariant (UserExists env ps) := by
  unfold UserExists
  simp only [res_bind_def, res_pure_def]
  refine inv_bind _ _ (fun u => ?_)
  split
  · exact inv_ok00
  · exact inv_ok1 _ (str_append_left_ne _ _ (by decide))

theorem inv_UserHasUID (env : Env) (ps : List String) :
    resultInvariant (UserHasUID env ps) := by
  unfold UserHasUID
  simp only [res_bind_def, res_pure_def]
  exact inv_bind _ _ (fun a => inv_bind _ _ (fun b => inv_genericUserField env a "Uid" b))

theorem inv_UserHasGID (env : Env) (ps : List String) :
    resultInvariant (UserHasGID env ps) := by
  unfold UserHasGID
  simp only [res_bind_def, res_pure_def]
  exact inv_bind _ _ (fun a => inv_bind _ _ (fun b => inv_genericUserField env a "Gid" b))

theorem inv_UserHasUsername (env : Env) (ps : List String) :
    resultInvariant (UserHasUsername env ps) := by
  unfold UserHasUsername
  simp only [res_bind_def, res_pure_def]
  exact inv_bind _ _ (fun a => inv_bind _ _ (fun b => inv_genericUserField env a "Username" b))

theorem inv_UserHasName (env : Env) (ps : List String) :
    resultInvariant (UserHasName env ps) := by
  unfold UserHasName
  simp only [res_bind_def, res_pure_def]
  exact inv_bind _ _ (fun a => inv_bind _ _ (fun b => inv_genericUserField env a "Name" b))

theorem inv_UserHasHomeDir (env : Env) (ps : List String) :
    resultInvariant (UserHasHomeDir env ps) := by
  unfold UserHasHomeDir
  simp only [res_bind_def, res_pure_def]
  exact inv_bind _ _ (fun a => inv_bind _ _ (fun b => inv_genericUserField env a "HomeDir" b))

theorem inv_DockerImage (env : Env) (ps : List String) :
    resultInvariant (DockerImage env ps) := by
  unfold DockerImage
  simp only [res_bind_def, res_pure_def]
  refine inv_bind _ _ (fun name => inv_bind _ _ (fun images => ?_))
  split
  · exact inv_ok00
  · exact inv_genericError _ _ _

theorem inv_DockerRunning (env : Env) (ps : List String) :
    resultInvariant (DockerRunning env ps) := by
  unfold DockerRunning
  simp only [res_bind_def, res_pure_def]
  refine inv_bind _ _ (fun name => inv_bind _ _ (fun running => ?_))
  split
  · exact inv_ok00
  · exact inv_genericError _ _ _

theorem inv_Port (env : Env) (ps : List String) :
    resultInvariant (Port env ps) := by
  unfold Port
  simp only [res_bind_def, res_pure_def]
  refine inv_bind _ _ (fun s => inv_bind _ _ (fun port => inv_bind _ _ (fun openPorts => ?_)))
  split
  · exact inv_ok00
  · exact inv_genericError _ _ _

theorem inv_Interface (env : Env) (ps : List String) :
    resultInvariant (Interface env ps) := by
  unfold Interface
  simp only [res_bind_def, res_pure_def]
  refine inv_bind _ _ (fun name => inv_bind _ _ (fun ifaces => ?_))
  split
  · exact inv_ok00
  · exact inv_genericError _ _ _

theorem inv_Up (env : Env) (ps : List String) :
    resultInvariant (Up env ps) := by
  unfold Up
  simp only [res_bind_def, res_pure_def]
  refine inv_bind _ _ (fun name => inv_bind _ _ (fun ifaces => ?_))
  split
  · exact inv_ok00
  · exact inv_genericError _ _ _

theorem inv_getIPWorker (env : Env) (name address : String) (version : Int) :
    resultInvariant (getIPWorker env name address version) := by
  unfold getIPWorker
  simp only [res_bind_def, res_pure_def]
  refine inv_bind _ _ (fun ips => ?_)
  split
  · exact inv_ok00
  · exact inv_genericError _ _ _

theorem inv_Ip4 (env : Env) (ps : List String) :
    resultInvariant (Ip4 env ps) := by
  unfold Ip4
  simp only [res_bind_def, res_pure_def]
  exact inv_bind _ _ (fun a => inv_bind _ _ (fun b => inv_getIPWorker env a b 4))

theorem inv_Ip6 (env : Env) (ps : List String) :
    resultInvariant (Ip6 env ps) := by
  unfold Ip6
  simp only [res_bind_def, res_pure_def]
  exact inv_bind _ _ (fun a => inv_bind _ _ (fun b => inv_getIPWorker env a b 6))

theorem inv_Gateway (env : Env) (ps : List String) :
    resultInvariant (Gateway env ps) := by
  unfold Gateway
  simp only [res_bind_def, res_pure_def]
  refine inv_bind _ _ (fun address => inv_bind _ _ (fun ips => ?_))
  split
  · exact inv_ok00
  · exact inv_genericError _ _ _

theorem inv_GatewayInterface (env : Env) (ps : List String) :
    resultInvariant (GatewayInterface env ps) := by
  unfold GatewayInterface
  simp only [res_bind_def, res_pure_def]
  refine inv_bind _ _ (fun name => inv_bind _ _ (fun ips => inv_bind _ _ (fun names =>
    inv_bind _ _ (fun iface => ?_))))
  split
  · exact inv_ok00
  · exact inv_genericError _ _ _

theorem inv_Host (env : Env) (ps : List String) :
    resultInvariant (Host env ps) := by
  unfold Host
  simp only [res_bind_def, res_pure_def]
  refine inv_bind _ _ (fun host => ?_)
  split
  · exact inv_ok00
  · exact inv_ok1 _ (str_append_left_ne _ _ (by decide))

theorem inv_getConnectionWorker (env : Env) (host protocol ts : String) :
    resultInvariant (getConnectionWorker env host protocol ts) := by
  unfold getConnectionWorker
  split
  · exact inv_fatal _
  · simp only [res_bind_def, res_pure_def]
    refine inv_bind _ _ (fun b => ?_)
    split
    · exact inv_ok00
    · exact inv_ok1 _ (str_append_left_ne _ _ (str_append_left_ne _ _
        (str_append_left_ne _ _ (by decide))))

theorem inv_TCP (env : Env) (ps : List String) :
    resultInvariant (TCP env ps) := by
  unfold TCP
  simp only [res_bind_def, res_pure_def]
  exact inv_bind _ _ (fun a => inv_getConnectionWorker env a "TCP" "0ns")

theorem inv_UDP (env : Env) (ps : List String) :
    resultInvariant (UDP env ps) := by
  unfold UDP
  simp only [res_bind_def, res_pure_def]
  exact inv_bind _ _ (fun a => inv_getConnectionWorker env a "UDP" "0ns")

theorem inv_routingTableMatch (env : Env) (col : Nat) (str : String) :
    resultInvariant (routingTableMatch env col str) := by
  unfold routingTableMatch
  simp only [res_bind_def, res_pure_def]
  refine inv_bind _ _ (fun column => ?_)
  split
  · exact inv_ok00
  · exact inv_genericError _ _ _

theorem inv_RoutingTableDestination (env : Env) (ps : List String) :
    resultInvariant (RoutingTableDestination env ps) := by
  unfold RoutingTableDestination
  simp only [res_bind_def, res_pure_def]
  exact inv_bind _ _ (fun a => inv_routingTableMatch env 0 a)

theorem inv_RoutingTableInterface (env : Env) (ps : List String) :
    resultInvariant (RoutingTableInterface env ps) := by
  unfold RoutingTableInterface
  simp only [res_bind_def, res_pure_def]
  exact inv_bind _ _ (fun a => inv_routingTableMatch env 7 a)

theorem inv_RoutingTableGateway (env : Env) (ps : List String) :
    resultInvariant (RoutingTableGateway env ps) := by
  unfold RoutingTableGateway
  simp only [res_bind_def, res_pure_def]
  exact inv_bind _ _ (fun a => inv_routingTableMatch env 1 a)

/-- C2: For every domain check (GroupExists, UserInGroup, GroupId,
UserExists, the UserHas* checks, DockerImage, DockerRunning, Port,
Interface, Up, Ip4, Ip6, Gateway, GatewayInterface, Host, TCP, UDP, the
RoutingTable* checks) and every input on which it returns normally, the
returned pair satisfies: exitCode is 0 or 1; exitCode 0 implies the exit
message is empty; and exitCode 1 implies the exit message is non-empty. -/
theorem checkResult_contract :
    (∀ env ps, resultInvariant (GroupExists env ps)) ∧
    (∀ env ps, resultInvariant (UserInGroup env ps)) ∧
    (∀ env ps, resultInvariant (GroupId env ps)) ∧
    (∀ env ps, resultInvariant (UserExists env ps)) ∧
    (∀ env ps, resultInvariant (UserHasUID env ps)) ∧
    (∀ env ps, resultInvariant (UserHasGID env ps)) ∧
    (∀ env ps, resultInvariant (UserHasUsername env ps)) ∧
    (∀ env ps, resultInvariant (UserHasName env ps)) ∧
    (∀ env ps, resultInvariant (UserHasHomeDir env ps)) ∧
    (∀ env ps, resultInvariant (DockerImage env ps)) ∧
    (∀ env ps, resultInvariant (DockerRunning env ps)) ∧
    (∀ env ps, resultInvariant (Port env ps)) ∧
    (∀ env ps, resultInvariant (Interface env ps)) ∧
    (∀ env ps, resultInvariant (Up env ps)) ∧
    (∀ env ps, resultInvariant (Ip4 env ps)) ∧
    (∀ env ps, resultInvariant (Ip6 env ps)) ∧
    (∀ env ps, resultInvariant (Gateway env ps)) ∧
    (∀ env ps, resultInvariant (GatewayInterface env ps)) ∧
    (∀ env ps, resultInvariant (Host env ps)) ∧
    (∀ env ps, resultInvariant (TCP env ps)) ∧
    (∀ env ps, resultInvariant (UDP env ps)) ∧
    (∀ env ps, resultInvariant (RoutingTableDestination env ps)) ∧
    (∀ env ps, resultInvariant (RoutingTableInterface env ps)) ∧
    (∀ env ps, resultInvariant (RoutingTableGateway env ps)) :=
  ⟨inv_GroupExists, inv_UserInGroup, inv_GroupId, inv_UserExists, inv_UserHasUID,
    inv_UserHasGID, inv_UserHasUsername, inv_UserHasName, inv_UserHasHomeDir,
    inv_DockerImage, inv_DockerRunning, inv_Port, inv_Interface, inv_Up, inv_Ip4,
    inv_Ip6, inv_Gateway, inv_GatewayInterface, inv_Host, inv_TCP, inv_UDP,
    inv_RoutingTableDestination, inv_RoutingTableInterface, inv_RoutingTableGateway⟩

/-- Witness for C2: the contract instantiated at a concrete invocation,
`GroupExists` on the group fixture, which returns `(0, "")`. -/
theorem checkResult_contract_witness :
    ((0 : Nat) = 0 ∨ (0 : Nat) = 1) ∧ ((0 : Nat) = 0 → ("" : String) = "") ∧
    ((0 : Nat) = 1 → ("" : String) ≠ "") :=
  checkResult_contract.1 envGroupFix ["sudo"] 0 "" (by decide)

/-- C1: the source of `UserInGroup` reads `parameters[0]` for both the user
and the group, so on the spec's fixture `/etc/group` line `sudo:x:27:alice`
the invocation `UserInGroup(["alice","sudo"])` looks up a group named
`alice`, finds none, and returns exit code 1 with a Group-not-found message
instead of the `(0, "")` the spec requires, and
`UserInGroup(["bob","sudo"])` likewise reports Group-not-found listing
`sudo` rather than listing `alice` as the found users. -/
theorem userInGroup_reads_index_zero_twice :
    UserInGroup envGroupFix ["alice", "sudo"] =
      .ok (1, "Group not found\n\tWanted: alice\n\tFound: sudo") ∧
    UserInGroup envGroupFix ["alice", "sudo"] ≠ .ok (0, "") ∧
    UserInGroup envGroupFix ["bob", "sudo"] =
      .ok (1, "Group not found\n\tWanted: bob\n\tFound: sudo") := by
  exact ⟨by decide, by decide, by decide⟩

/-- C10: no domain check guards the length of its parameter list: with
fewer parameters than the check's positional arity, every check hits an
out-of-range index on the parameter sequence (a runtime panic) rather than
returning any `(exitCode, exitMessage)` result, whatever the host state. -/
theorem checks_panic_on_missing_parameters (env : Env) (s : String) :
    GroupExists env [] = .panic ∧
    UserInGroup env [] = .panic ∧
    GroupId env [] = .panic ∧
    GroupId env [s] = .panic ∧
    UserExists env [] = .panic ∧
    UserHasUID env [] = .panic ∧
    UserHasUID env [s] = .panic ∧
    UserHasGID env [] = .panic ∧
    UserHasGID env [s] = .panic ∧
    UserHasUsername env [] = .panic ∧
    UserHasUsername env [s] = .panic ∧
    UserHasName env [] = .panic ∧
    UserHasName env [s] = .panic ∧
    UserHasHomeDir env [] = .panic ∧
    UserHasHomeDir env [s] = .panic ∧
    DockerImage env [] = .panic ∧
    DockerRunning env [] = .panic ∧
    Port env [] = .panic ∧
    Interface env [] = .panic ∧
    Up env [] = .panic ∧
    Ip4 env [] = .panic ∧
    Ip4 env [s] = .panic ∧
    Ip6 env [] = .panic ∧
    Ip6 env [s] = .panic ∧
    Gateway env [] = .panic ∧
    GatewayInterface env [] = .panic ∧
    Host env [] = .panic ∧
    TCP env [] = .panic ∧
    UDP env [] = .panic ∧
    RoutingTableDestination env [] = .panic ∧
    RoutingTableInterface env [] = .panic ∧
    RoutingTableGateway env [] = .panic :=
  ⟨rfl, rfl, rfl, rfl, rfl, rfl, rfl, rfl, rfl, rfl, rfl, rfl, rfl, rfl, rfl, rfl,
    rfl, rfl, rfl, rfl, rfl, rfl, rfl, rfl, rfl, rfl, rfl, rfl, rfl, rfl, rfl, rfl⟩

theorem getGroupsLines_cons_bad (line : List String) (rest : List (List String))
    (hlen : 3 < line.length) (hparse : parseInt10 (line.getD 2 "") = none) :
    getGroupsLines (line :: rest) =
      .fatal ("Could not parse ID for group: " ++ line.getD 0 "") := by
  simp only [getGroupsLines]
  rw [if_pos hlen, hparse]

theorem getGroupsLines_cons_good (line : List String) (rest : List (List String))
    (hlen : 3 < line.length) (gid : Int) (hparse : parseInt10 (line.getD 2 "") = some gid) :
    getGroupsLines (line :: rest) =
      Res.bind (getGroupsLines rest) (fun groups =>
        .ok ({ Name := line.getD 0 "", Id := gid,
               Users := splitOnC ',' (line.getD 3 "") } :: groups)) := by
  simp only [getGroupsLines]
  rw [if_pos hlen, hparse]
  rfl

theorem getGroupsLines_cons_short (line : List String) (rest : List (List String))
    (hlen : ¬ 3 < line.length) :
    getGroupsLines (line :: rest) = getGroupsLines rest := by
  simp only [getGroupsLines]
  rw [if_neg hlen]

theorem getGroupsLines_fatal (lines : List (List String))
    (h : ∃ line ∈ lines, 3 < line.length ∧ parseInt10 (line.getD 2 "") = none) :
    ∃ msg, getGroupsLines lines = .fatal msg := by
  induction lines with
  | nil => simp at h
  | cons line rest ih =>
    rcases h with ⟨l, hl, hlen, hparse⟩
    rcases List.mem_cons.mp hl with rfl | hmem
    · exact ⟨_, getGroupsLines_cons_bad l rest hlen hparse⟩
    · by_cases h3 : 3 < line.length
      · cases hp : parseInt10 (line.getD 2 "") with
        | none => exact ⟨_, getGroupsLines_cons_bad line rest h3 hp⟩
        | some gid =>
          obtain ⟨msg, hmsg⟩ := ih ⟨l, hmem, hlen, hparse⟩
          refine ⟨msg, ?_⟩
          rw [getGroupsLines_cons_good line rest h3 gid hp, hmsg]
          rfl
      · obtain ⟨msg, hmsg⟩ := ih ⟨l, hmem, hlen, hparse⟩
        exact ⟨msg, (getGroupsLines_cons_short line rest h3).trans hmsg⟩

/-- C3: environment and input failures never become a `(1, message)` check
result: an unsupported protocol in `canConnect`, an IP version other than 4
or 6 in `getInterfaceIPs`, a timeout string that does not parse as a
duration in `getConnectionWorker`, and a group line whose numeric id field
does not parse in `getGroups` each terminate the whole run fatally. -/
theorem envFailure_fatal :
    (∀ (env : Env) (host protocol : String) (ns : Int), protocol ≠ "TCP" → protocol ≠ "UDP" →
      canConnect env host protocol ns = .fatal ("Unsupported protocol: " ++ protocol)) ∧
    (∀ (env : Env) (name : String) (version : Int), version ≠ 4 → version ≠ 6 →
      getInterfaceIPs env name version =
        .fatal ("Misconfigured JSON: Unsupported IP version: " ++ toString version)) ∧
    (∀ (env : Env) (host protocol ts : String), env.parseDuration ts = none →
      getConnectionWorker env host protocol ts =
        .fatal ("Configuration error: Could not parse duration: " ++ ts)) ∧
    (∀ (env : Env) (data : String), env.etcGroup = some data →
      (∃ line ∈ separateString '\n' ':' data, 3 < line.length ∧
        parseInt10 (line.getD 2 "") = none) →
      ∃ msg, getGroups env = .fatal msg) := by
  refine ⟨?_, ?_, ?_, ?_⟩
  · intro env host protocol ns h1 h2
    simp [canConnect, h1, h2]
  · intro env name version h4 h6
    simp [getInterfaceIPs, h4, h6]
  · intro env host protocol ts h
    simp [getConnectionWorker, h]
  · intro env data hsome hbad
    have : getGroups env = getGroupsLines (separateString '\n' ':' data) := by
      simp [getGroups, fileToString, hsome]
    obtain ⟨msg, hmsg⟩ := getGroupsLines_fatal _ hbad
    exact ⟨msg, this.trans hmsg⟩

/-- Witness for C3: an unsupported protocol string makes `canConnect`
terminate fatally. -/
theorem envFailure_fatal_witness :
    canConnect baseEnv "example.com:80" "ICMP" 0 =
      .fatal ("Unsupported protocol: " ++ "ICMP") :=
  envFailure_fatal.1 baseEnv "example.com:80" "ICMP" 0 (by decide) (by decide)

/-- C8: when the `docker ps -a` command run by `DockerRunning` fails, the
whole run terminates fatally rather than returning a `(1, message)` check
result, with a dedicated message when the combined output contains the
substring `permission denied`. -/
theorem dockerRunning_cmd_failure_fatal (env : Env) (name : String)
    (h : env.dockerPsErr = true) :
    (isSubstr "permission denied" env.dockerPsOut = true →
      DockerRunning env [name] = .fatal "Permission denied when running: docker ps -a") ∧
    (isSubstr "permission denied" env.dockerPsOut = false →
      DockerRunning env [name] =
        .fatal ("Error while running `docker ps -a`" ++ "\n\t" ++ env.dockerPsErrMsg)) := by
  constructor <;> intro hp <;>
    simp [DockerRunning, getParam, getRunningContainers, h, hp]

/-- Witness for C8: a permission-denied failure of `docker ps -a` is fatal. -/
theorem dockerRunning_cmd_failure_fatal_witness :
    DockerRunning envPsErr ["app-1"] =
      .fatal "Permission denied when running: docker ps -a" :=
  (dockerRunning_cmd_failure_fatal envPsErr "app-1" rfl).1 (by decide)

theorem listPrefix_append (n t : List Char) : listPrefix n (n ++ t) = true := by
  induction n with
  | nil => rfl
  | cons a as ih => simp [listPrefix, ih]

theorem infixOf_append (s n t : List Char) : infixOf n (s ++ n ++ t) = true := by
  induction s with
  | nil =>
    simp only [List.nil_append]
    cases n with
    | nil =>
      cases t with
      | nil => rfl
      | cons c t2 => simp [infixOf, listPrefix]
    | cons a as =>
      simp only [List.cons_append]
      have hp : listPrefix (a :: as) (a :: (as ++ t)) = true := by
        have h := listPrefix_append (a :: as) t
        simpa [List.cons_append] using h
      simp [infixOf, hp]
  | cons c cs ih =>
    have ih2 : infixOf n (cs ++ (n ++ t)) = true := by
      rw [← List.append_assoc]
      exact ih
    simp only [List.cons_append, List.append_assoc]
    simp [infixOf, ih2]

theorem isSubstr_parts (a n b : String) : isSubstr n (a ++ n ++ b) = true := by
  unfold isSubstr
  have h : (a ++ n ++ b).toList = a.toList ++ n.toList ++ b.toList := rfl
  rw [h]
  exact infixOf_append a.toList n.toList b.toList

theorem isSubstr_right (a n : String) : isSubstr n (a ++ n) = true := by
  unfold isSubstr
  have h : (a ++ n).toList = a.toList ++ n.toList := rfl
  rw [h]
  have := infixOf_append a.toList n.toList []
  simpa using this

theorem genericError_contains_wanted (l w : String) (f : List String) :
    isSubstr w (genericError l w f).2 = true := by
  have h : (genericError l w f).2 =
      (l ++ "\n\tWanted: ") ++ w ++ ("\n\tFound: " ++ foundRender f) := by
    simp [genericError, String.append_assoc]
  rw [h]
  exact isSubstr_parts _ _ _

theorem genericError_contains_found (l w : String) (f : List String) :
    isSubstr (foundRender f) (genericError l w f).2 = true := by
  have h : (genericError l w f).2 =
      (l ++ "\n\tWanted: " ++ w ++ "\n\tFound: ") ++ foundRender f := rfl
  rw [h]
  exact isSubstr_right _ _

/-- C5: on the `/proc/net/tcp` fixture whose local-address column holds
`0100007F:1F90` (hex `1F90` is 8080 decimal), `Port(["8080"])` returns
`(0, "")` and `Port(["9999"])` returns exit code 1 with a message that
lists the open port 8080 that was found. -/
theorem port_fixture_behavior :
    Port envTcpFix ["8080"] = .ok (0, "") ∧
    Port envTcpFix ["9999"] = .ok (genericError "Port not open" "9999" ["8080"]) ∧
    isSubstr "9999" (genericError "Port not open" "9999" ["8080"]).2 = true ∧
    isSubstr "8080" (genericError "Port not open" "9999" ["8080"]).2 = true :=
  ⟨by decide, by decide, by decide, by decide⟩

/-- C6: with a healthy `docker images` invocation, `DockerImage` returns
`(0, "")` exactly when its first parameter appears in column 0 of the
output with the header row dropped; when the name is absent the result is
exit code 1 with the Diagnostic-Formatter message, which contains the
searched-for name and lists the image names that were found. -/
theorem dockerImage_column0_membership (env : Env) (name : String)
    (herr : env.dockerImagesErr = false) :
    (DockerImage env [name] = .ok (0, "") ↔
      strIn name (getColumnNoHeader 0 (stringToSlice env.dockerImagesOut)) = true) ∧
    (strIn name (getColumnNoHeader 0 (stringToSlice env.dockerImagesOut)) = false →
      DockerImage env [name] =
        .ok (genericError "Docker image was not found" name
          (getColumnNoHeader 0 (stringToSlice env.dockerImagesOut))) ∧
      isSubstr name (genericError "Docker image was not found" name
        (getColumnNoHeader 0 (stringToSlice env.dockerImagesOut))).2 = true ∧
      isSubstr (foundRender (getColumnNoHeader 0 (stringToSlice env.dockerImagesOut)))
        (genericError "Docker image was not found" name
          (getColumnNoHeader 0 (stringToSlice env.dockerImagesOut))).2 = true) := by
  have hrun : DockerImage env [name] =
      if strIn name (getColumnNoHeader 0 (stringToSlice env.dockerImagesOut)) then
        .ok (0, "")
      else
        .ok (genericError "Docker image was not found" name
          (getColumnNoHeader 0 (stringToSlice env.dockerImagesOut))) := by
    simp [DockerImage, getParam, commandColumnNoHeader, herr]
  constructor
  · rw [hrun]
    by_cases hb : strIn name (getColumnNoHeader 0 (stringToSlice env.dockerImagesOut)) = true
    · simp [hb]
    · simp [hb, genericError]
  · intro hb
    rw [hrun, if_neg (by simp [hb])]
    exact ⟨rfl, genericError_contains_wanted _ _ _, genericError_contains_found _ _ _⟩

/-- Witness for C6: on the docker fixture, the image `ubuntu` is found and
`nonexistent-image` produces the diagnostic message. -/
theorem dockerImage_column0_membership_witness :
    DockerImage envDockerFix ["nonexistent-image"] =
      .ok (genericError "Docker image was not found" "nonexistent-image"
        (getColumnNoHeader 0 (stringToSlice envDockerFix.dockerImagesOut))) ∧
    isSubstr "nonexistent-image" (genericError "Docker image was not found" "nonexistent-image"
      (getColumnNoHeader 0 (stringToSlice envDockerFix.dockerImagesOut))).2 = true ∧
    isSubstr (foundRender (getColumnNoHeader 0 (stringToSlice envDockerFix.dockerImagesOut)))
      (genericError "Docker image was not found" "nonexistent-image"
        (getColumnNoHeader 0 (stringToSlice envDockerFix.dockerImagesOut))).2 = true :=
  (dockerImage_column0_membership envDockerFix "nonexistent-image" rfl).2 (by decide)

theorem gwLoop_eq (rest pre : List String) :
    gwLoop (pre ++ rest) pre.length rest = .ok (gwFirst rest) := by
  induction rest generalizing pre with
  | nil => rfl
  | cons ip rest2 ih =>
    by_cases hip : ip = "0.0.0.0"
    · have h1 : gwLoop (pre ++ ip :: rest2) pre.length (ip :: rest2) =
          gwLoop (pre ++ ip :: rest2) (pre.length + 1) rest2 := by
        simp [gwLoop, hip]
      have h2 : pre ++ ip :: rest2 = (pre ++ [ip]) ++ rest2 := by simp
      have h3 : pre.length + 1 = (pre ++ [ip]).length := by simp
      rw [h1, h2, h3, ih (pre ++ [ip])]
      have h4 : gwFirst (ip :: rest2) = gwFirst rest2 := by
        simp [gwFirst, List.find?_cons_of_neg, hip]
      rw [h4]
    · have hk : ¬ (pre ++ ip :: rest2).length < pre.length := by
        simp only [List.length_append, List.length_cons]
        omega
      have hget : (pre ++ ip :: rest2)[pre.length]? = some ip := by
        rw [List.getElem?_append_right (Nat.le_refl _)]
        simp
      have h4 : gwFirst (ip :: rest2) = ip := by
        simp [gwFirst, List.find?_cons_of_pos, hip]
      rw [h4]
      simp only [gwLoop]
      rw [if_pos hip, if_neg hk, hget]
      rfl

/-- C9: `GatewayInterface` derives both its gateway-IP list and its
"interface name" list from routing-table column 1 (the source assigns
`names := routingTableColumn(1)`), so whenever the column-1 extraction
succeeds the check returns `(0, "")` exactly when its first parameter
equals the first non-`"0.0.0.0"` entry of that column (or the empty string
when no such entry exists), and the whole result is a function of that
column alone — the routing table's interface column 7 is never
consulted. -/
theorem gatewayInterface_uses_gateway_column (env : Env) (name : String) (rts : List String)
    (h : routingTableColumn env 1 = .ok rts) :
    (GatewayInterface env [name] = .ok (0, "") ↔ name = gwFirst rts) ∧
    GatewayInterface env [name] =
      (if name = gwFirst rts then Res.ok ((0, "") : CheckResult)
       else .ok (genericError "Default gateway does not operate on interface" name
         [gwFirst rts])) := by
  have hloop : gwLoop rts 0 rts = .ok (gwFirst rts) := gwLoop_eq rts []
  have hrun : GatewayInterface env [name] =
      (if name = gwFirst rts then Res.ok ((0, "") : CheckResult)
       else .ok (genericError "Default gateway does not operate on interface" name
         [gwFirst rts])) := by
    simp [GatewayInterface, getParam, h, hloop]
  refine ⟨?_, hrun⟩
  rw [hrun]
  by_cases hn : name = gwFirst rts
  · simp [hn]
  · simp [hn, genericError]

/-- Witness for C9: on the route fixture the extracted column is
`["10.0.0.1"]` and the check accepts exactly the gateway IP itself. -/
theorem gatewayInterface_uses_gateway_column_witness :
    (GatewayInterface envRouteFix ["10.0.0.1"] = .ok (0, "") ↔
      "10.0.0.1" = gwFirst ["10.0.0.1"]) ∧
    GatewayInterface envRouteFix ["10.0.0.1"] =
      (if "10.0.0.1" = gwFirst ["10.0.0.1"] then Res.ok ((0, "") : CheckResult)
       else .ok (genericError "Default gateway does not operate on interface" "10.0.0.1"
         [gwFirst ["10.0.0.1"]])) :=
  gatewayInterface_uses_gateway_column envRouteFix "10.0.0.1" ["10.0.0.1"] (by decide)

theorem splitOnP_sepFree (p : Char → Bool) (f : List Char) (hf : ∀ c ∈ f, p c = false) :
    splitOnP p f = [f] := by
  induction f with
  | nil => rfl
  | cons c rest ih =>
    have hc : p c = false := hf c (by simp)
    have hrest : ∀ x ∈ rest, p x = false := fun x hx => hf x (by simp [hx])
    simp only [splitOnP, hc]
    rw [ih hrest]
    rfl

theorem splitOnP_append (p : Char → Bool) (f : List Char) (sep : Char) (rest : List Char)
    (hf : ∀ c ∈ f, p c = false) (hsep : p sep = true) :
    splitOnP p (f ++ sep :: rest) = f :: splitOnP p rest := by
  induction f with
  | nil => simp [splitOnP, hsep]
  | cons c cs ih =>
    have hc : p c = false := hf c (by simp)
    have hcs : ∀ x ∈ cs, p x = false := fun x hx => hf x (by simp [hx])
    have e : (c :: cs) ++ sep :: rest = c :: (cs ++ sep :: rest) := rfl
    rw [e]
    simp only [splitOnP, hc]
    rw [ih hcs]
    rfl

theorem splitOnP_joinSep (p : Char → Bool) (sep : Char) (fs : List (List Char))
    (hne : fs ≠ []) (hf : ∀ f ∈ fs, ∀ c ∈ f, p c = false) (hsep : p sep = true) :
    splitOnP p (joinSep sep fs) = fs := by
  induction fs with
  | nil => exact absurd rfl hne
  | cons f fs2 ih =>
    cases fs2 with
    | nil =>
      simp only [joinSep]
      exact splitOnP_sepFree p f (hf f (by simp))
    | cons g gs =>
      have hj : joinSep sep (f :: g :: gs) = f ++ sep :: joinSep sep (g :: gs) := rfl
      rw [hj, splitOnP_append p f sep _ (hf f (by simp)) hsep,
        ih (by simp) (fun x hx => hf x (by simp [hx]))]

theorem mem_joinSep (sep : Char) (fs : List (List Char)) (c : Char)
    (hc : c ∈ joinSep sep fs) : c = sep ∨ ∃ f ∈ fs, c ∈ f := by
  induction fs with
  | nil => simp [joinSep] at hc
  | cons f fs2 ih =>
    cases fs2 with
    | nil =>
      simp only [joinSep] at hc
      exact Or.inr ⟨f, by simp, hc⟩
    | cons g gs =>
      rw [show joinSep sep (f :: g :: gs) = f ++ sep :: joinSep sep (g :: gs) from rfl] at hc
      rcases List.mem_append.mp hc with h1 | h2
      · exact Or.inr ⟨f, by simp, h1⟩
      · rcases List.mem_cons.mp h2 with rfl | h3
        · exact Or.inl rfl
        · rcases ih h3 with h | ⟨f2, hf2, hcf2⟩
          · exact Or.inl h
          · exact Or.inr ⟨f2, by simp [hf2], hcf2⟩

theorem mk_toList (s : String) : String.mk s.toList = s := by
  cases s with
  | mk d => rfl

theorem splitOnC_joinCols (r : List String) (hr : r ≠ [])
    (hfields : ∀ f ∈ r, ∀ c ∈ f.toList, ¬ c = ':') :
    splitOnC ':' (joinCols r) = r := by
  unfold splitOnC joinCols
  have h1 : (String.mk (joinSep ':' (r.map String.toList))).toList =
      joinSep ':' (r.map String.toList) := rfl
  rw [h1, splitOnP_joinSep _ ':' (r.map String.toList) (by simp [hr])
    (by
      intro f hfm c hcm
      rcases List.mem_map.mp hfm with ⟨s, hs, rfl⟩
      simp only [decide_eq_false_iff_not]
      exact hfields s hs c hcm)
    (by simp)]
  rw [List.map_map]
  have h2 : (String.mk ∘ String.toList) = id := by
    funext s
    exact mk_toList s
  rw [h2, List.map_id]

/-- C4: `getGroups` under the exact-delimiter policy skips every line with
fewer than 4 colon-separated fields and turns every line with at least 4
fields (whose id field parses) into `Group(Name = field 0, Id = parsed
field 2, Users = field 3 split on commas)`; the tokenizer recovers the
original field values of colon/newline-free fields exactly; and the fixture
line `wheel:x:10:alice,bob` yields exactly
`Group(Name "wheel", Id 10, Users ["alice","bob"])`. -/
theorem getGroups_parsing :
    (∀ lines : List (List String),
      (∀ l ∈ lines, 3 < l.length → parseInt10 (l.getD 2 "") ≠ none) →
      getGroupsLines lines = .ok ((lines.filter (fun l => 3 < l.length)).map (fun l =>
        { Name := l.getD 0 "", Id := (parseInt10 (l.getD 2 "")).getD 0,
          Users := splitOnC ',' (l.getD 3 "") }))) ∧
    (∀ rows : List (List String), rows ≠ [] →
      (∀ r ∈ rows, r ≠ [] ∧ ∀ f ∈ r, ∀ c ∈ f.toList, ¬ c = ':' ∧ ¬ c = '\n') →
      separateString '\n' ':' (joinRows (rows.map joinCols)) = rows) ∧
    getGroups envWheel = .ok [{ Name := "wheel", Id := 10, Users := ["alice", "bob"] }] := by
  refine ⟨?_, ?_, by decide⟩
  · intro lines hok
    induction lines with
    | nil => rfl
    | cons line rest ih =>
      have hok2 : ∀ l ∈ rest, 3 < l.length → parseInt10 (l.getD 2 "") ≠ none :=
        fun l hl => hok l (List.mem_cons_of_mem _ hl)
      by_cases h3 : 3 < line.length
      · have hp := hok line (by simp) h3
        cases hpp : parseInt10 (line.getD 2 "") with
        | none => exact absurd hpp hp
        | some gid =>
          rw [getGroupsLines_cons_good line rest h3 gid hpp, ih hok2]
          have hfc : (line :: rest).filter (fun l => decide (3 < l.length)) =
              line :: rest.filter (fun l => decide (3 < l.length)) :=
            List.filter_cons_of_pos (by simp [h3])
          rw [hfc, List.map_cons]
          simp only [hpp, Option.getD_some]
          rfl
      · rw [getGroupsLines_cons_short line rest h3, ih hok2]
        have hfc : (line :: rest).filter (fun l => decide (3 < l.length)) =
            rest.filter (fun l => decide (3 < l.length)) :=
          List.filter_cons_of_neg (by simp [h3])
        rw [hfc]
  · intro rows hne hrows
    unfold separateString joinRows
    have hsplit : splitOnC '\n' (String.mk (joinSep '\n' ((rows.map joinCols).map String.toList))) =
        rows.map joinCols := by
      unfold splitOnC
      have h1 : (String.mk (joinSep '\n' ((rows.map joinCols).map String.toList))).toList =
          joinSep '\n' ((rows.map joinCols).map String.toList) := rfl
      rw [h1, splitOnP_joinSep _ '\n' _ (by simp [hne])
        (by
          intro f hfm c hcm
          rcases List.mem_map.mp hfm with ⟨s, hs, rfl⟩
          rcases List.mem_map.mp hs with ⟨r, hr, rfl⟩
          simp only [decide_eq_false_iff_not]
          have hcj : c = ':' ∨ ∃ g ∈ r.map String.toList, c ∈ g := by
            apply mem_joinSep
            exact hcm
          rcases hcj with rfl | ⟨g, hgm, hcg⟩
          · decide
          · rcases List.mem_map.mp hgm with ⟨fs, hfs, rfl⟩
            exact ((hrows r hr).2 fs hfs c hcg).2)
        (by simp)]
      rw [List.map_map]
      have h2 : (String.mk ∘ String.toList) = id := by
        funext s
        exact mk_toList s
      rw [h2, List.map_id]
    rw [hsplit, List.map_map]
    have h3 : ∀ r ∈ rows, (splitOnC ':' ∘ joinCols) r = r := by
      intro r hr
      exact splitOnC_joinCols r (hrows r hr).1 (fun f hf c hc => ((hrows r hr).2 f hf c hc).1)
    calc rows.map (splitOnC ':' ∘ joinCols) = rows.map id := List.map_congr_left h3
      _ = rows := List.map_id rows

/-- Witness for C4: the line `wheel:x:10:alice,bob` round-trips through the
exact-delimiter tokenizer, and a 4-field line with a parsing id is turned
into the corresponding Group. -/
theorem getGroups_parsing_witness :
    separateString '\n' ':' (joinRows ([["wheel", "x", "10", "alice,bob"]].map joinCols)) =
      [["wheel", "x", "10", "alice,bob"]] :=
  getGroups_parsing.2.1 [["wheel", "x", "10", "alice,bob"]] (by decide) (by decide)

theorem chunks_cons_nil (c : Char) (rest : List Char) (hc : chunks rest = []) :
    chunks (c :: rest) = [[c]] := by
  simp only [chunks]
  rw [hc]

theorem chunks_cons_nilhead (c : Char) (rest : List Char) (gs : List (List Char))
    (hc : chunks rest = [] :: gs) : chunks (c :: rest) = [c] :: gs := by
  simp only [chunks]
  rw [hc]

theorem chunks_cons_eq (c : Char) (rest : List Char) (d : Char) (ds : List Char)
    (gs : List (List Char)) (hc : chunks rest = (d :: ds) :: gs) :
    chunks (c :: rest) =
      if isWS c = isWS d then (c :: d :: ds) :: gs else [c] :: (d :: ds) :: gs := by
  simp only [chunks]
  rw [hc]

theorem chunks_flatten (l : List Char) : (chunks l).flatten = l := by
  induction l with
  | nil => rfl
  | cons c rest ih =>
    cases hc : chunks rest with
    | nil =>
      rw [hc] at ih
      simp only [List.flatten_nil] at ih
      rw [chunks_cons_nil c rest hc]
      simp [← ih]
    | cons g gs =>
      rw [hc] at ih
      cases g with
      | nil =>
        rw [chunks_cons_nilhead c rest gs hc]
        simp only [List.flatten_cons, List.nil_append] at ih
        simp [List.flatten_cons, ih]
      | cons d ds =>
        rw [chunks_cons_eq c rest d ds gs hc]
        by_cases hw : isWS c = isWS d
        · rw [if_pos hw]
          simp only [List.flatten_cons] at ih ⊢
          rw [← ih]
          simp
        · rw [if_neg hw]
          simp only [List.flatten_cons] at ih ⊢
          rw [← ih]
          simp

theorem chunks_mem_ne_nil (l : List Char) : ∀ g ∈ chunks l, g ≠ [] := by
  induction l with
  | nil => intro g hg; simp [chunks] at hg
  | cons c rest ih =>
    intro g hg
    cases hc : chunks rest with
    | nil =>
      rw [chunks_cons_nil c rest hc] at hg
      simp at hg
      subst hg
      simp
    | cons g2 gs =>
      cases g2 with
      | nil =>
        rw [chunks_cons_nilhead c rest gs hc] at hg
        rcases List.mem_cons.mp hg with rfl | h2
        · simp
        · exact ih g (by rw [hc]; exact List.mem_cons_of_mem _ h2)
      | cons d ds =>
        rw [chunks_cons_eq c rest d ds gs hc] at hg
        by_cases hw : isWS c = isWS d
        · rw [if_pos hw] at hg
          rcases List.mem_cons.mp hg with rfl | h2
          · simp
          · exact ih g (by rw [hc]; exact List.mem_cons_of_mem _ h2)
        · rw [if_neg hw] at hg
          rcases List.mem_cons.mp hg with rfl | h2
          · simp
          · exact ih g (by rw [hc]; exact h2)

theorem fieldsOfRuns_ne_nil (runs : List (List Char)) : fieldsOfRuns runs ≠ [] := by
  cases runs with
  | nil => simp [fieldsOfRuns]
  | cons run rest =>
    simp only [fieldsOfRuns]
    split
    · simp
    · cases h : fieldsOfRuns rest <;> simp

theorem hasWW_tail (c : Char) (rest : List Char) (h : hasWW (c :: rest) = false) :
    hasWW rest = false := by
  cases rest with
  | nil => rfl
  | cons c2 r2 =>
    simp only [hasWW, Bool.or_eq_false_iff] at h
    exact h.2

theorem hasWW_head (c d : Char) (rest : List Char) (h : hasWW (c :: d :: rest) = false) :
    (isWS c && isWS d) = false := by
  simp only [hasWW, Bool.or_eq_false_iff] at h
  exact h.1

theorem fieldsOfRuns_noWW (l : List Char) (h : hasWW l = false) :
    fieldsOfRuns (chunks l) = [String.mk l] := by
  induction l with
  | nil => rfl
  | cons c rest ih =>
    have hrest : hasWW rest = false := hasWW_tail c rest h
    have ihr := ih hrest
    cases hc : chunks rest with
    | nil =>
      have hr : rest = [] := by
        have hj := chunks_flatten rest
        rw [hc] at hj
        simpa using hj.symm
      subst hr
      rw [chunks_cons_nil c [] hc]
      rfl
    | cons g gs =>
      cases g with
      | nil =>
        have hmem : ([] : List Char) ∈ chunks rest := by
          rw [hc]
          exact List.mem_cons_self _ _
        exact absurd rfl (chunks_mem_ne_nil rest [] hmem)
      | cons d ds =>
        have hdRest : rest = d :: (ds ++ gs.flatten) := by
          have hj := chunks_flatten rest
          rw [hc] at hj
          simp only [List.flatten_cons, List.cons_append] at hj
          exact hj.symm
        rw [hc] at ihr
        rw [chunks_cons_eq c rest d ds gs hc]
        by_cases hw : isWS c = isWS d
        · rw [if_pos hw]
          have hcd : (isWS c && isWS d) = false := by
            rw [hdRest] at h
            exact hasWW_head c d (ds ++ gs.flatten) h
          have hcF : isWS c = false := by
            cases hic : isWS c
            · rfl
            · rw [hic, ← hw, hic] at hcd
              simp at hcd
          have hdF : isWS d = false := by rw [← hw]; exact hcF
          have e1 : fieldsOfRuns ((d :: ds) :: gs) =
              match fieldsOfRuns gs with
              | [] => [String.mk (d :: ds)]
              | f :: fs => (String.mk (d :: ds) ++ f) :: fs := by
            simp only [fieldsOfRuns, List.headD_cons, hdF, Bool.and_false]
            rfl
          cases hg : fieldsOfRuns gs with
          | nil => exact absurd hg (fieldsOfRuns_ne_nil gs)
          | cons f fs =>
            rw [e1, hg] at ihr
            have hfs : fs = [] := by
              have := congrArg List.tail ihr
              simpa using this
            have hfd : String.mk (d :: ds) ++ f = String.mk rest := by
              have := congrArg List.head? ihr
              simpa using this
            have hdata : (d :: ds) ++ f.data = rest := congrArg String.data hfd
            have e2 : fieldsOfRuns ((c :: d :: ds) :: gs) =
                match fieldsOfRuns gs with
                | [] => [String.mk (c :: d :: ds)]
                | f :: fs => (String.mk (c :: d :: ds) ++ f) :: fs := by
              simp only [fieldsOfRuns, List.headD_cons, hcF, Bool.and_false]
              rfl
            rw [e2, hg, hfs]
            have : String.mk (c :: d :: ds) ++ f = String.mk (c :: rest) := by
              have h2 : (String.mk (c :: d :: ds) ++ f).data = c :: ((d :: ds) ++ f.data) := rfl
              have h3 : (String.mk (c :: d :: ds) ++ f).data = c :: rest := by rw [h2, hdata]
              cases hf : String.mk (c :: d :: ds) ++ f with
              | mk dlist =>
                rw [hf] at h3
                simp only at h3
                rw [h3]
            simp only [this]
        · rw [if_neg hw]
          have e3 : fieldsOfRuns ([c] :: (d :: ds) :: gs) =
              match fieldsOfRuns ((d :: ds) :: gs) with
              | [] => [String.mk [c]]
              | f :: fs => (String.mk [c] ++ f) :: fs := by
            simp only [fieldsOfRuns, List.headD_cons, List.length_cons, List.length_nil]
            rfl
          rw [e3, ihr]
          have : String.mk [c] ++ String.mk rest = String.mk (c :: rest) := rfl
          simp only [this]

/-- Under the run-of-whitespace policy, a line with no run of two or more
whitespace characters — in particular one whose only whitespace is single
embedded spaces — is a single column. -/
theorem multispaceSplit_single (s : String) (h : hasWW s.toList = false) :
    multispaceSplit s = [s] := by
  unfold multispaceSplit
  rw [fieldsOfRuns_noWW s.toList h, mk_toList]

theorem splitOnP_ne_nil (p : Char → Bool) (l : List Char) : splitOnP p l ≠ [] := by
  induction l with
  | nil => simp [splitOnP]
  | cons c rest ih =>
    simp only [splitOnP]
    split
    · simp
    · cases h : splitOnP p rest with
      | nil => simp [h]
      | cons f fs => simp [h]

theorem filterMap_col_eq_map (c : Nat) (ls : List (List String))
    (h : ∀ r ∈ ls, c < r.length) :
    ls.filterMap (fun row => row[c]?) = ls.map (fun r => r.getD c "") := by
  induction ls with
  | nil => rfl
  | cons r rs ih =>
    have hr : c < r.length := h r (by simp)
    have hrs : ∀ x ∈ rs, c < x.length := fun x hx => h x (by simp [hx])
    have hsome : (r[c]?) = some r[c] := List.getElem?_eq_getElem hr
    simp [List.filterMap_cons, hsome, ih hrs]

theorem getColumnNoHeader_full (c : Nat) (table : List (List String))
    (h : ∀ row ∈ table.drop 1, c < row.length) :
    getColumnNoHeader c table = (table.drop 1).map (fun r => r.getD c "") := by
  unfold getColumnNoHeader
  exact filterMap_col_eq_map c (table.drop 1) h

theorem statusLoop_spec (rows : List (List String)) :
    ∀ pre : List String,
    statusLoop (pre ++ rows.map (fun r => r.getD 1 "")) pre.length
        (rows.map (fun r => r.getD 4 "")) =
      (rows.filter (fun r => isSubstr "Up" (r.getD 4 ""))).map (fun r => r.getD 1 "") := by
  induction rows with
  | nil => intro pre; rfl
  | cons r rs ih =>
    intro pre
    simp only [List.map_cons, statusLoop]
    have hlen : pre.length <
        (pre ++ r.getD 1 "" :: rs.map (fun r2 => r2.getD 1 "")).length := by
      simp only [List.length_append, List.length_cons]
      omega
    have hdec : decide (pre.length <
        (pre ++ r.getD 1 "" :: rs.map (fun r2 => r2.getD 1 "")).length) = true :=
      decide_eq_true hlen
    have hget : (pre ++ r.getD 1 "" :: rs.map (fun r2 => r2.getD 1 "")).getD pre.length "" =
        r.getD 1 "" := by
      simp [List.getD_eq_getElem?_getD, List.getElem?_append_right (Nat.le_refl pre.length)]
    have hshift : pre ++ r.getD 1 "" :: rs.map (fun r2 => r2.getD 1 "") =
        (pre ++ [r.getD 1 ""]) ++ rs.map (fun r2 => r2.getD 1 "") := by
      simp
    have hlen2 : pre.length + 1 = (pre ++ [r.getD 1 ""]).length := by simp
    by_cases hup : isSubstr "Up" (r.getD 4 "") = true
    · rw [hup, hdec]
      simp only [Bool.and_self, if_true]
      rw [hget]
      rw [hshift, hlen2, ih (pre ++ [r.getD 1 ""])]
      have hfc : List.filter (fun r2 => isSubstr "Up" (r2.getD 4 "")) (r :: rs) =
          r :: List.filter (fun r2 => isSubstr "Up" (r2.getD 4 "")) rs :=
        List.filter_cons_of_pos hup
      rw [hfc, List.map_cons]
    · have hup2 : isSubstr "Up" (r.getD 4 "") = false := by
        cases hu : isSubstr "Up" (r.getD 4 "")
        · rfl
        · exact absurd hu hup
      rw [hup2]
      simp only [Bool.false_and, Bool.false_eq_true, if_false]
      rw [hshift, hlen2, ih (pre ++ [r.getD 1 ""])]
      have hfc : List.filter (fun r2 => isSubstr "Up" (r2.getD 4 "")) (r :: rs) =
          List.filter (fun r2 => isSubstr "Up" (r2.getD 4 "")) rs :=
        List.filter_cons_of_neg hup
      rw [hfc]

/-- C7: `DockerRunning` tokenizes `docker ps -a` output under the
run-of-whitespace policy — a line with no run of two or more whitespace
characters stays one column, so a single embedded space never introduces a
column boundary, and the spec's example row splits into exactly three
fields — and on well-formed output (header-skipped rows with at least five
columns) it returns `(0, "")` exactly when its first parameter equals the
column-1 name of some header-skipped row whose column-4 status contains
`"Up"`. -/
theorem dockerRunning_multispace (env : Env) (name : String)
    (herr : env.dockerPsErr = false)
    (hrows : ∀ row ∈ (stringToSliceMultispace env.dockerPsOut).drop 1, 5 ≤ row.length) :
    (DockerRunning env [name] = .ok (0, "") ↔
      ∃ row ∈ (stringToSliceMultispace env.dockerPsOut).drop 1,
        row.getD 1 "" = name ∧ isSubstr "Up" (row.getD 4 "") = true) ∧
    (∀ s : String, hasWW s.toList = false → multispaceSplit s = [s]) ∧
    multispaceSplit "app-1   Up 3 hours   mycontainer app" =
      ["app-1", "Up 3 hours", "mycontainer app"] := by
  refine ⟨?_, fun s hs => multispaceSplit_single s hs, by decide⟩
  have h1 : ∀ r ∈ (stringToSliceMultispace env.dockerPsOut).drop 1, 1 < r.length :=
    fun r hr => by have := hrows r hr; omega
  have h4 : ∀ r ∈ (stringToSliceMultispace env.dockerPsOut).drop 1, 4 < r.length :=
    fun r hr => by have := hrows r hr; omega
  have hnames := getColumnNoHeader_full 1 (stringToSliceMultispace env.dockerPsOut) h1
  have hstat := getColumnNoHeader_full 4 (stringToSliceMultispace env.dockerPsOut) h4
  have hne : stringToSliceMultispace env.dockerPsOut ≠ [] := by
    unfold stringToSliceMultispace splitOnC
    intro hcontra
    have hlen := congrArg List.length hcontra
    simp only [List.length_map, List.length_nil] at hlen
    exact splitOnP_ne_nil _ _ (List.length_eq_zero.mp hlen)
  have hlen1 : ¬ (stringToSliceMultispace env.dockerPsOut).length < 1 := by
    have := List.length_pos.mpr hne
    omega
  have hrc : getRunningContainers env =
      .ok ((((stringToSliceMultispace env.dockerPsOut).drop 1).filter
          (fun r2 => isSubstr "Up" (r2.getD 4 ""))).map (fun r2 => r2.getD 1 "")) := by
    unfold getRunningContainers
    rw [herr]
    simp only [Bool.false_eq_true, if_false]
    rw [if_neg hlen1, hnames, hstat]
    have hsl := statusLoop_spec ((stringToSliceMultispace env.dockerPsOut).drop 1) []
    rw [List.nil_append, List.length_nil] at hsl
    exact congrArg Res.ok hsl
  have hDR : DockerRunning env [name] =
      (if strIn name ((((stringToSliceMultispace env.dockerPsOut).drop 1).filter
            (fun r2 => isSubstr "Up" (r2.getD 4 ""))).map (fun r2 => r2.getD 1 "")) then
        Res.ok ((0, "") : CheckResult)
      else
        .ok (genericError "Docker container not runnning" name
          ((((stringToSliceMultispace env.dockerPsOut).drop 1).filter
            (fun r2 => isSubstr "Up" (r2.getD 4 ""))).map (fun r2 => r2.getD 1 "")))) := by
    simp [DockerRunning, getParam, hrc]
  have hmem : ∀ xs : List String, strIn name xs = true ↔ name ∈ xs := by
    intro xs
    unfold strIn
    exact List.elem_iff
  have hmem2 : name ∈ ((((stringToSliceMultispace env.dockerPsOut).drop 1).filter
        (fun r2 => isSubstr "Up" (r2.getD 4 ""))).map (fun r2 => r2.getD 1 "")) ↔
      ∃ row ∈ (stringToSliceMultispace env.dockerPsOut).drop 1,
        row.getD 1 "" = name ∧ isSubstr "Up" (row.getD 4 "") = true := by
    simp only [List.mem_map, List.mem_filter]
    constructor
    · rintro ⟨r, ⟨hr, hp⟩, hg⟩
      exact ⟨r, hr, hg, hp⟩
    · rintro ⟨r, hr, hg, hp⟩
      exact ⟨r, ⟨hr, hp⟩, hg⟩
  rw [hDR]
  by_cases hin : strIn name ((((stringToSliceMultispace env.dockerPsOut).drop 1).filter
      (fun r2 => isSubstr "Up" (r2.getD 4 ""))).map (fun r2 => r2.getD 1 "")) = true
  · rw [if_pos hin]
    constructor
    · intro _
      exact hmem2.mp ((hmem _).mp hin)
    · intro _
      rfl
  · rw [if_neg hin]
    constructor
    · intro hok
      exact absurd hok (by simp [genericError])
    · intro hex
      exact absurd ((hmem _).mpr (hmem2.mpr hex)) hin

/-- Witness for C7: on the docker fixture, the running container `app-1`
satisfies the iff, and the example row tokenizes into three columns. -/
theorem dockerRunning_multispace_witness :
    (DockerRunning envDockerFix ["app-1"] = .ok (0, "") ↔
      ∃ row ∈ (stringToSliceMultispace envDockerFix.dockerPsOut).drop 1,
        row.getD 1 "" = "app-1" ∧ isSubstr "Up" (row.getD 4 "") = true) ∧
    (∀ s : String, hasWW s.toList = false → multispaceSplit s = [s]) ∧
    multispaceSplit "app-1   Up 3 hours   mycontainer app" =
      ["app-1", "Up 3 hours", "mycontainer app"] :=
  dockerRunning_multispace envDockerFix "app-1" rfl (by decide)

end Distributive
